import Mathlib

/-!
Verification of the sprite-generation pipeline client
(`src/spriteGeneration/generate_scenario_sprites.py`).

The Python module is a sequential HTTP client: it submits an img2img
generation job, polls the job status at a fixed 5-second interval until a
terminal status, chains a background-removal job on the first output asset,
polls again, downloads the final image URL and writes the bytes to a local
file.

Shallow embedding choices:
* JSON response bodies are embedded as structures whose fields are `Option`s
  exactly where the Python code accesses them with `.get` (absent field =
  `none`); `job_result.get("outputs", [])` becomes `outputs.getD []`.
* The network is an explicit deterministic oracle (`Backend`): one response
  per POST, a response stream (indexed by query number) per poll loop, and a
  code/bytes pair per download URL.
* The unbounded `while True` poll loop is embedded with fuel: a `none`
  result means the loop did not reach a terminal status within the given
  number of iterations.
* Observable effects (status queries, `time.sleep(5)`, job submissions, the
  final GET and the file write) are recorded in an event trace, and the
  local file system is threaded explicitly as `String → Option (List Nat)`.
* Python exceptions are the error type `PyErr`: `raise Exception(msg)`
  becomes `PyErr.exception msg`, `raise_for_status` on a ≥ 400 code becomes
  `PyErr.httpError`, an unguarded `json[...]` key access raises
  `PyErr.keyError`, subscripting `None` raises `PyErr.typeError`,
  subscripting an empty list raises `PyErr.indexError`, and
  `requests.get(None)` raises `PyErr.missingSchema` (the `requests` library
  rejects a `None` URL client-side before any network traffic).
* A Python function without a `return` statement returns `None`; the
  pipeline's returned Python value is typed `Option (String × Nat)` so that
  the specified return value (written path and byte count) is statable —
  the code's actual value is `none`.
-/

namespace SpriteGen
/-- Raw image bytes, as a list of byte values. -/
abbrev Bytes := List Nat

/-- The local file system: a map from path to file contents. -/
abbrev FS := String → Option Bytes

/-- One output descriptor inside a job payload, i.e. the JSON object
`{assetIds?: [string], url?: string}`; each field is `Option` because the
code reads both with `.get`. -/
structure OutputDesc where
  assetIds : Option (List String)
  url : Option String
deriving DecidableEq

/-- A job-status payload (`job_data` in the source): the JSON object
`{status?, progress?, outputs?, error?}`, every field read with `.get`. -/
structure JobData where
  status : Option String
  progress : Option Nat
  outputs : Option (List OutputDesc)
  error : Option String
deriving DecidableEq

/-- Python exceptions that the module can raise, one constructor per raise
site kind in the source. -/
inductive PyErr where
  | httpError (code : Nat)
  | exception (msg : String)
  | keyError (key : String)
  | typeError (msg : String)
  | indexError (msg : String)
  | missingSchema
deriving DecidableEq

instance {ε α : Type} [DecidableEq ε] [DecidableEq α] :
    DecidableEq (Except ε α) := fun x y =>
  match x, y with
  | .ok a, .ok b =>
      if h : a = b then .isTrue (by rw [h]) else .isFalse (by simp [h])
  | .error a, .error b =>
      if h : a = b then .isTrue (by rw [h]) else .isFalse (by simp [h])
  | .ok _, .error _ => .isFalse (by simp)
  | .error _, .ok _ => .isFalse (by simp)

/-- An HTTP response to a status query: status code plus decoded JSON body. -/
structure StatusResponse where
  code : Nat
  body : JobData
deriving DecidableEq

/-- An HTTP response to a job-submission POST: status code plus the decoded
body's optional `jobId` field. -/
structure SubmitResponse where
  code : Nat
  jobId : Option String
deriving DecidableEq

/-- Observable effects of a pipeline run, in order. -/
inductive Event where
  | statusQuery (jobId : String) (k : Nat)
  | sleep (secs : Nat)
  | submitImg2Img
  | submitRemoveBg (assetId : String)
  | httpGet (url : Option String)
  | fileWrite (path : String) (bytes : Bytes)
deriving DecidableEq

/-- Number of status queries recorded in a trace. -/
def queryCount (evs : List Event) : Nat :=
  (evs.filter fun e =>
    match e with
    | .statusQuery _ _ => true
    | _ => false).length

/-- The img2img generation request (`payload` in the source). The numeric
parameters are carried verbatim and never computed with, so the two float
parameters are embedded as rationals. -/
structure GenRequest where
  prompt : String
  imageAssetId : String
  modelId : String
  strength : ℚ
  numSamples : Nat
  guidance : ℚ
  numInferenceSteps : Nat
deriving DecidableEq

/-- A deterministic remote backend: the responses the Scenario API gives to
each request the pipeline can make. Poll responses are indexed by how many
status queries have already been made for that job. -/
structure Backend where
  img2img : GenRequest → SubmitResponse
  genStatus : Nat → StatusResponse
  removeBg : String → SubmitResponse
  bgStatus : Nat → StatusResponse
  download : String → Nat × Bytes

/-- The body of `poll_job_status`, with fuel and the index `k` of the next
status query. Mirrors the source loop: GET the job, `raise_for_status`,
return the payload on status `"success"`, raise on `"failure"`, otherwise
sleep 5 seconds and query again. Returns the loop's outcome (`none` when
the fuel runs out before a terminal status) and the event trace. -/
def pollAux (jobId : String) (responses : Nat → StatusResponse) :
    Nat → Nat → Option (Except PyErr JobData) × List Event
  | 0, _ => (none, [])
  | fuel + 1, k =>
    let r := responses k
    if 400 ≤ r.code then
      (some (.error (.httpError r.code)), [.statusQuery jobId k])
    else if r.body.status = some "success" then
      (some (.ok r.body), [.statusQuery jobId k])
    else if r.body.status = some "failure" then
      (some (.error (.exception "Scenario.gg job failed.")),
       [.statusQuery jobId k])
    else
      let rest := pollAux jobId responses fuel (k + 1)
      (rest.1, .statusQuery jobId k :: .sleep 5 :: rest.2)

/-- Embedding of `poll_job_status(job_id)` from the source, over a response stream and a
fuel bound for the unbounded loop. -/
def poll_job_status (jobId : String) (responses : Nat → StatusResponse)
    (fuel : Nat) : Option (Except PyErr JobData) × List Event :=
  pollAux jobId responses fuel 0

/-- Outcome of one pipeline run: the Python value returned by the function
(`none` inside the `Except` is Python's `None`; the outer `Option` is `none`
when a poll loop exhausted its fuel), the event trace, and the file system
after the run. -/
structure RunOutcome where
  result : Option (Except PyErr (Option (String × Nat)))
  events : List Event
  fs : FS

/-- Embedding of `generate_img2img_sprite_sheet` from the source, step for step:
submit the img2img POST (`raise_for_status`, then `jobId` — a `KeyError`
there is caught and re-raised as the "Failed to get jobId" exception);
poll; take `job_result.get("outputs", [])` and raise if empty; read
`outputs[0].get("assetIds")[0]` (subscripting a missing field raises
`TypeError`, an empty list `IndexError`); submit remove-background
(`jobId` read with an unguarded subscript: `KeyError` if absent); poll;
take the first bg output's `url` via `.get`; `requests.get` the URL
(a `None` URL raises `MissingSchema` client-side); `raise_for_status`;
write the bytes to `output_filename`. The function ends without a
`return`, so the Python value returned on success is `None`. -/
def generate_img2img_sprite_sheet (req : GenRequest) (output_filename : String)
    (backend : Backend) (fuel : Nat) (fs : FS) : RunOutcome :=
  let r1 := backend.img2img req
  if 400 ≤ r1.code then
    ⟨some (.error (.httpError r1.code)), [.submitImg2Img], fs⟩
  else
    match r1.jobId with
    | none =>
        ⟨some (.error (.exception "Failed to get jobId from img2img response.")),
         [.submitImg2Img], fs⟩
    | some job_id =>
      match poll_job_status job_id backend.genStatus fuel with
      | (none, evs) => ⟨none, .submitImg2Img :: evs, fs⟩
      | (some (.error e), evs) => ⟨some (.error e), .submitImg2Img :: evs, fs⟩
      | (some (.ok job_result), evs) =>
        let evA := .submitImg2Img :: evs
        match job_result.outputs.getD [] with
        | [] =>
            ⟨some (.error (.exception "No outputs found for generation job.")),
             evA, fs⟩
        | o :: _ =>
          match o.assetIds with
          | none =>
              ⟨some (.error (.typeError "NoneType object is not subscriptable")),
               evA, fs⟩
          | some [] =>
              ⟨some (.error (.indexError "list index out of range")), evA, fs⟩
          | some (generated_asset_id :: _) =>
            let r2 := backend.removeBg generated_asset_id
            let evB := evA ++ [.submitRemoveBg generated_asset_id]
            if 400 ≤ r2.code then
              ⟨some (.error (.httpError r2.code)), evB, fs⟩
            else
              match r2.jobId with
              | none => ⟨some (.error (.keyError "jobId")), evB, fs⟩
              | some bg_job_id =>
                match poll_job_status bg_job_id backend.bgStatus fuel with
                | (none, evs2) => ⟨none, evB ++ evs2, fs⟩
                | (some (.error e), evs2) =>
                    ⟨some (.error e), evB ++ evs2, fs⟩
                | (some (.ok bg_result), evs2) =>
                  let evC := evB ++ evs2
                  match bg_result.outputs.getD [] with
                  | [] =>
                      ⟨some (.error
                          (.exception "No outputs found for background removal job.")),
                       evC, fs⟩
                  | o2 :: _ =>
                    match o2.url with
                    | none =>
                        ⟨some (.error .missingSchema),
                         evC ++ [.httpGet none], fs⟩
                    | some final_image_url =>
                      let dl := backend.download final_image_url
                      let evD := evC ++ [.httpGet (some final_image_url)]
                      if 400 ≤ dl.1 then
                        ⟨some (.error (.httpError dl.1)), evD, fs⟩
                      else
                        ⟨some (.ok none),
                         evD ++ [.fileWrite output_filename dl.2],
                         fun p => if p = output_filename then some dl.2 else fs p⟩

/-- The bytes of `b"PNGDATA"`. -/
def pngBytes : Bytes := [0x50, 0x4E, 0x47, 0x44, 0x41, 0x54, 0x41]

/-- A fully successful mock backend: img2img job succeeds with one output
asset `A1`, remove-background succeeds with one output URL `U`, and a GET
of `U` returns `pngBytes`. -/
def happyBackend : Backend where
  img2img := fun _ => ⟨200, some "job-gen"⟩
  genStatus := fun _ => ⟨200, ⟨some "success", some 100, some [⟨some ["A1"], none⟩], none⟩⟩
  removeBg := fun _ => ⟨200, some "job-bg"⟩
  bgStatus := fun _ => ⟨200, ⟨some "success", some 100, some [⟨none, some "U"⟩], none⟩⟩
  download := fun u => if u = "U" then (200, pngBytes) else (404, [])

/-- A sample generation request (the "male warrior" call of the source's
main block). -/
def sampleRequest : GenRequest where
  prompt := "8-bit RPG male warrior character sprite sheet, with a large sword and shield"
  imageAssetId := "asset_aNYJezDQZUtkkikLrnhEkshs"
  modelId := "model_p1dBcEaYQ5jUjB2brcf8bb1W"
  strength := 3 / 4
  numSamples := 1
  guidance := 7 / 2
  numInferenceSteps := 28

/-- The empty file system. -/
def emptyFS : FS := fun _ => none

/-- The mocked status sequence `[running(10%), running(55%), success]`. -/
def c5Responses : Nat → StatusResponse := fun k =>
  if k = 0 then ⟨200, ⟨some "running", some 10, none, none⟩⟩
  else if k = 1 then ⟨200, ⟨some "running", some 55, none, none⟩⟩
  else ⟨200, ⟨some "success", some 100, some [⟨some ["A1"], none⟩], none⟩⟩

/-- The payload of the terminal response of `c5Responses`. -/
def c5Payload : JobData :=
  ⟨some "success", some 100, some [⟨some ["A1"], none⟩], none⟩

/-- A response stream whose bodies never contain a `status` field. -/
def noStatusResponses : Nat → StatusResponse :=
  fun _ => ⟨200, ⟨none, none, none, none⟩⟩

/-- A response stream that always reports status `"running"`. -/
def runningResponses : Nat → StatusResponse :=
  fun _ => ⟨200, ⟨some "running", some 0, none, none⟩⟩

/-- The trace of a poll loop that never observes a terminal status:
each status query is followed by a 5-second sleep and the next query. -/
def pollLoopTrace (jobId : String) : Nat → Nat → List Event
  | 0, _ => []
  | fuel + 1, k =>
      .statusQuery jobId k :: .sleep 5 :: pollLoopTrace jobId fuel (k + 1)

/-- Whether `pat` is an initial segment of `s`. -/
def leadMatch : List Char → List Char → Bool
  | [], _ => true
  | _ :: _, [] => false
  | a :: as, b :: bs => a == b && leadMatch as bs

/-- Whether `pat` occurs as a contiguous segment of `s`. -/
def hasSub (pat : List Char) : List Char → Bool
  | [] => leadMatch pat []
  | b :: bs => leadMatch pat (b :: bs) || hasSub pat bs

/-- A status stream whose first terminal status is `"failure"` (at query
index 1) with service-reported error `"bad prompt"`. -/
def c2Responses : Nat → StatusResponse := fun k =>
  if k = 0 then ⟨200, ⟨some "running", some 10, none, none⟩⟩
  else if k = 1 then ⟨200, ⟨some "failure", none, none, some "bad prompt"⟩⟩
  else ⟨200, ⟨some "running", some 0, none, none⟩⟩

/-- A backend whose img2img submission answers 200 with no `jobId`. -/
def noJobIdBackend : Backend where
  img2img := fun _ => ⟨200, none⟩
  genStatus := happyBackend.genStatus
  removeBg := happyBackend.removeBg
  bgStatus := happyBackend.bgStatus
  download := happyBackend.download

/-- A backend whose img2img submission fails with HTTP 500. -/
def failSubmitBackend : Backend where
  img2img := fun _ => ⟨500, none⟩
  genStatus := happyBackend.genStatus
  removeBg := happyBackend.removeBg
  bgStatus := happyBackend.bgStatus
  download := happyBackend.download

/-- A file system already holding a stale file at `out.png`. -/
def preFS : FS := fun p => if p = "out.png" then some [1, 2, 3] else none

/-- The terminal payload of the mocked generation job (asset `A1`). -/
def genPayload : JobData :=
  ⟨some "success", some 100, some [⟨some ["A1"], none⟩], none⟩

/-- The terminal payload of the mocked background-removal job (url `U`). -/
def bgPayload : JobData :=
  ⟨some "success", some 100, some [⟨none, some "U"⟩], none⟩

/-- A backend whose background-removal job succeeds but whose first output
descriptor has no `url` field. -/
def noUrlBackend : Backend where
  img2img := happyBackend.img2img
  genStatus := happyBackend.genStatus
  removeBg := happyBackend.removeBg
  bgStatus := fun _ =>
    ⟨200, ⟨some "success", some 100, some [⟨none, none⟩], none⟩⟩
  download := happyBackend.download

/-- The background-removal payload of `noUrlBackend` (no `url` field). -/
def bgNoUrlPayload : JobData :=
  ⟨some "success", some 100, some [⟨none, none⟩], none⟩

/-- A backend whose generation job succeeds with one output descriptor
holding an empty `assetIds` list. -/
def emptyAssetsBackend : Backend where
  img2img := happyBackend.img2img
  genStatus := fun _ =>
    ⟨200, ⟨some "success", some 100, some [⟨some [], none⟩], none⟩⟩
  removeBg := happyBackend.removeBg
  bgStatus := happyBackend.bgStatus
  download := happyBackend.download

/-- The generation payload of `emptyAssetsBackend` (empty `assetIds`). -/
def genEmptyAssetsPayload : JobData :=
  ⟨some "success", some 100, some [⟨some [], none⟩], none⟩

/-- If the poll loop returns a payload, it does so on the first response
whose status is `"success"`: every earlier response was HTTP-ok and
non-terminal, the returned payload is that response's body, and the query
that observed it is the last one made. Stated for an arbitrary starting
query index `k`. -/
theorem pollAux_ok_characterization (jobId : String)
    (responses : Nat → StatusResponse) (fuel : Nat) :
    ∀ k data evs, pollAux jobId responses fuel k = (some (.ok data), evs) →
      ∃ n, k ≤ n ∧ n < k + fuel ∧
        (responses n).code < 400 ∧
        (responses n).body.status = some "success" ∧
        data = (responses n).body ∧
        (∀ i, k ≤ i → i < n →
          (responses i).code < 400 ∧
          (responses i).body.status ≠ some "success" ∧
          (responses i).body.status ≠ some "failure") ∧
        queryCount evs = n - k + 1 := by
  induction fuel with
  | zero =>
    intro k data evs h
    simp [pollAux] at h
  | succ f ih =>
    intro k data evs h
    rcases hp : pollAux jobId responses f (k + 1) with ⟨r2, e2⟩
    simp only [pollAux, hp] at h
    split_ifs at h with h400 hsucc hfail
    · simp at h
    · obtain ⟨h1, h2⟩ := Prod.mk.injEq .. ▸ h
      obtain rfl : data = (responses k).body := by
        simpa using h1.symm
      refine ⟨k, le_refl k, by omega, by omega, hsucc, rfl, ?_, ?_⟩
      · intro i hki hik; omega
      · simp [← h2, queryCount]
    · simp at h
    · obtain ⟨h1, h2⟩ := Prod.mk.injEq .. ▸ h
      obtain ⟨n, hk1n, hnf, hcode, hst, hdata, hpre, hqc⟩ :=
        ih (k + 1) data e2 (by rw [hp, h1])
      refine ⟨n, by omega, by omega, hcode, hst, hdata, ?_, ?_⟩
      · intro i hki hin
        rcases Nat.eq_or_lt_of_le hki with heq | hlt
        · subst heq
          exact ⟨by omega, hsucc, hfail⟩
        · exact hpre i hlt hin
      · rw [← h2]
        simp only [queryCount, List.filter] at hqc ⊢
        simp [hqc]
        omega

/-- C1: for every job identifier and every status-response stream, if
`poll_job_status` returns a payload within any fuel bound, then the
returning query observed status `"success"`, every earlier query observed
an HTTP-ok, non-terminal (neither `"success"` nor `"failure"`) response,
the returned value is the full body of the succeeding response, and
exactly `n + 1` status queries were made — none after the success. -/
theorem poll_returns_only_on_terminal_success (jobId : String)
    (responses : Nat → StatusResponse) (fuel : Nat)
    (data : JobData) (evs : List Event)
    (h : poll_job_status jobId responses fuel = (some (.ok data), evs)) :
    ∃ n, n < fuel ∧
      (responses n).code < 400 ∧
      (responses n).body.status = some "success" ∧
      data = (responses n).body ∧
      (∀ i, i < n →
        (responses i).code < 400 ∧
        (responses i).body.status ≠ some "success" ∧
        (responses i).body.status ≠ some "failure") ∧
      queryCount evs = n + 1 := by
  obtain ⟨n, _, hlt, hcode, hst, hdata, hpre, hqc⟩ :=
    pollAux_ok_characterization jobId responses fuel 0 data evs h
  exact ⟨n, by omega, hcode, hst, hdata,
    fun i hi => hpre i (Nat.zero_le i) hi, by omega⟩

/-- Witness for C1 on the concrete `[running, running, success]` stream. -/
theorem poll_returns_only_on_terminal_success_witness :
    poll_job_status "job-1" c5Responses 3 =
      (some (.ok c5Payload),
       [.statusQuery "job-1" 0, .sleep 5,
        .statusQuery "job-1" 1, .sleep 5,
        .statusQuery "job-1" 2]) ∧
    ∃ n, n < 3 ∧
      (c5Responses n).code < 400 ∧
      (c5Responses n).body.status = some "success" ∧
      c5Payload = (c5Responses n).body ∧
      (∀ i, i < n →
        (c5Responses i).code < 400 ∧
        (c5Responses i).body.status ≠ some "success" ∧
        (c5Responses i).body.status ≠ some "failure") ∧
      queryCount
        [.statusQuery "job-1" 0, .sleep 5,
         .statusQuery "job-1" 1, .sleep 5,
         .statusQuery "job-1" 2] = n + 1 :=
  ⟨by decide,
   poll_returns_only_on_terminal_success "job-1" c5Responses 3 c5Payload _
     (by decide)⟩

/-- C5: on the mocked sequence `[running(10%), running(55%), success]`,
`poll_job_status` returns the succeeded payload after exactly three status
queries, with a single 5-second sleep between consecutive queries and no
sleep before the first query. -/
theorem poll_three_queries_with_waits :
    poll_job_status "job-1" c5Responses 3 =
      (some (.ok c5Payload),
       [.statusQuery "job-1" 0, .sleep 5,
        .statusQuery "job-1" 1, .sleep 5,
        .statusQuery "job-1" 2]) ∧
    queryCount (poll_job_status "job-1" c5Responses 3).2 = 3 := by
  decide

/-- C10: a status response with no `status` field is handled exactly like a
`"running"` response — the poller's outcome and trace over a stream of
status-less responses coincide, for every fuel and start index, with those
over a stream of `"running"` responses; moreover the loop never returns
within any fuel bound, its trace being an endless alternation of a status
query and a 5-second sleep. -/
theorem poll_missing_status_like_running (jobId : String) (fuel k : Nat) :
    pollAux jobId noStatusResponses fuel k
      = pollAux jobId runningResponses fuel k ∧
    pollAux jobId noStatusResponses fuel k
      = (none, pollLoopTrace jobId fuel k) := by
  induction fuel generalizing k with
  | zero => exact ⟨rfl, rfl⟩
  | succ f ih =>
    obtain ⟨ih1, ih2⟩ := ih (k + 1)
    constructor
    · simp [pollAux, noStatusResponses, runningResponses, ih1]
    · simp [pollAux, pollLoopTrace, noStatusResponses, ih2]

/-- If the first terminal response (at index `k + n`, within fuel) has
status `"failure"`, the poll loop raises the fixed-message exception
`"Scenario.gg job failed."` after exactly `n + 1` queries, whatever the
payload's `error` field says. -/
theorem pollAux_failure_fixed_message (jobId : String)
    (responses : Nat → StatusResponse) :
    ∀ n fuel k, n < fuel →
      (responses (k + n)).code < 400 →
      (responses (k + n)).body.status = some "failure" →
      (∀ i, i < n →
        (responses (k + i)).code < 400 ∧
        (responses (k + i)).body.status ≠ some "success" ∧
        (responses (k + i)).body.status ≠ some "failure") →
      ∃ evs, pollAux jobId responses fuel k =
          (some (.error (.exception "Scenario.gg job failed.")), evs) ∧
        queryCount evs = n + 1 := by
  intro n
  induction n with
  | zero =>
    intro fuel k hfuel hcode hst _
    cases fuel with
    | zero => omega
    | succ f =>
      refine ⟨[.statusQuery jobId k], ?_, by simp [queryCount]⟩
      simp only [Nat.add_zero] at hcode hst
      simp only [pollAux]
      rw [if_neg (by omega), if_neg (by rw [hst]; decide), if_pos hst]
  | succ m ih =>
    intro fuel k hfuel hcode hst hpre
    cases fuel with
    | zero => omega
    | succ f =>
      obtain ⟨hc0, hs0, hf0⟩ := hpre 0 (Nat.succ_pos m)
      simp only [Nat.add_zero] at hc0 hs0 hf0
      have hshift : k + 1 + m = k + (m + 1) := by omega
      obtain ⟨evs, heq, hqc⟩ :=
        ih f (k + 1) (by omega) (by rw [hshift]; exact hcode)
          (by rw [hshift]; exact hst)
          (fun i hi => by
            have h2 : k + 1 + i = k + (i + 1) := by omega
            rw [h2]
            exact hpre (i + 1) (by omega))
      refine ⟨.statusQuery jobId k :: .sleep 5 :: evs, ?_, ?_⟩
      · simp only [pollAux]
        rw [if_neg (by omega), if_neg hs0, if_neg hf0, heq]
      · simp only [queryCount, List.filter] at hqc ⊢
        simp [hqc]

/-- C2 counterexample: on the mocked stream ending in `failure` with
service error `"bad prompt"`, the poller raises the exception with the
fixed message `"Scenario.gg job failed."` — the raised message does not
contain the service-reported error text (it is only printed, not carried)
— after exactly two queries (none after the failure). -/
theorem poll_failure_counterexample :
    (c2Responses 1).body.error = some "bad prompt" ∧
    poll_job_status "job-2" c2Responses 10 =
      (some (.error (.exception "Scenario.gg job failed.")),
       [.statusQuery "job-2" 0, .sleep 5, .statusQuery "job-2" 1]) ∧
    hasSub "bad prompt".data "Scenario.gg job failed.".data = false := by
  refine ⟨by decide, by decide, by decide⟩

/-- C2 (amended): on every status stream whose first terminal status —
observed at query index `n`, within the fuel bound — is `"failure"`, the
poller raises the job-failure exception with the fixed message
`"Scenario.gg job failed."` (independent of the service-reported `error`
field, which is not carried in the raised error), performing exactly
`n + 1` status queries, none after observing the failure. -/
theorem poll_failure_raises_fixed_exception (jobId : String)
    (responses : Nat → StatusResponse) (fuel n : Nat)
    (hfuel : n < fuel)
    (hcode : (responses n).code < 400)
    (hst : (responses n).body.status = some "failure")
    (hpre : ∀ i, i < n →
      (responses i).code < 400 ∧
      (responses i).body.status ≠ some "success" ∧
      (responses i).body.status ≠ some "failure") :
    ∃ evs, poll_job_status jobId responses fuel =
        (some (.error (.exception "Scenario.gg job failed.")), evs) ∧
      queryCount evs = n + 1 := by
  have h := pollAux_failure_fixed_message jobId responses n fuel 0 hfuel
    (by simpa using hcode) (by simpa using hst)
    (fun i hi => by simpa using hpre i hi)
  exact h

/-- Witness for the amended C2 on the concrete `"bad prompt"` stream. -/
theorem poll_failure_raises_fixed_exception_witness :
    (1 < 10 ∧ (c2Responses 1).code < 400 ∧
      (c2Responses 1).body.status = some "failure") ∧
    ∃ evs, poll_job_status "job-2b" c2Responses 10 =
        (some (.error (.exception "Scenario.gg job failed.")), evs) ∧
      queryCount evs = 1 + 1 :=
  ⟨by decide,
   poll_failure_raises_fixed_exception "job-2b" c2Responses 10 1
     (by decide) (by decide) (by decide)
     (fun i hi => by
       interval_cases i
       exact ⟨by decide, by decide, by decide⟩)⟩

/-- A poll loop performs no file write: its trace holds only status
queries and sleeps. -/
theorem pollAux_no_fileWrite (jobId : String) (rs : Nat → StatusResponse)
    (fuel : Nat) (p : String) (b : Bytes) :
    ∀ k, Event.fileWrite p b ∉ (pollAux jobId rs fuel k).2 := by
  induction fuel with
  | zero => intro k; simp [pollAux]
  | succ f ih =>
    intro k
    simp only [pollAux]
    split_ifs <;> simp [ih (k + 1)]

/-- The function `poll_job_status` performs no file write. -/
theorem poll_no_fileWrite (jobId : String) (rs : Nat → StatusResponse)
    (fuel : Nat) (p : String) (b : Bytes) :
    Event.fileWrite p b ∉ (poll_job_status jobId rs fuel).2 :=
  pollAux_no_fileWrite jobId rs fuel p b 0

/-- C6: if the img2img submission response is HTTP-ok but has no `jobId`
field, the pipeline stops at once with the "Failed to get jobId" exception:
the run's whole trace is the single submission — zero status queries are
made — and the file system is untouched. -/
theorem generate_missing_jobid_no_poll (backend : Backend) (req : GenRequest)
    (fuel : Nat) (fs : FS) (path : String)
    (hcode : (backend.img2img req).code < 400)
    (hjid : (backend.img2img req).jobId = none) :
    generate_img2img_sprite_sheet req path backend fuel fs =
      ⟨some (.error (.exception "Failed to get jobId from img2img response.")),
       [.submitImg2Img], fs⟩ ∧
    queryCount (generate_img2img_sprite_sheet req path backend fuel fs).events
      = 0 := by
  have h1 : generate_img2img_sprite_sheet req path backend fuel fs =
      ⟨some (.error (.exception "Failed to get jobId from img2img response.")),
       [.submitImg2Img], fs⟩ := by
    simp [generate_img2img_sprite_sheet, hjid, Nat.not_le.mpr hcode]
  refine ⟨h1, ?_⟩
  rw [h1]
  simp [queryCount]

/-- Witness for C6 on a concrete 200-without-jobId submission response. -/
theorem generate_missing_jobid_no_poll_witness :
    ((noJobIdBackend.img2img sampleRequest).code < 400 ∧
      (noJobIdBackend.img2img sampleRequest).jobId = none) ∧
    (generate_img2img_sprite_sheet sampleRequest "out.png" noJobIdBackend 1 emptyFS =
      ⟨some (.error (.exception "Failed to get jobId from img2img response.")),
       [.submitImg2Img], emptyFS⟩ ∧
     queryCount
       (generate_img2img_sprite_sheet sampleRequest "out.png" noJobIdBackend 1
         emptyFS).events = 0) :=
  ⟨⟨by decide, by decide⟩,
   generate_missing_jobid_no_poll noJobIdBackend sampleRequest 1 emptyFS
     "out.png" (by decide) (by decide)⟩

/-- Master case analysis of one pipeline run, relating two runs that differ
only in the initial file system: the Python result and the event trace are
independent of the file system, and either the run leaves the file system
untouched and performs no file write, or it succeeds and both runs write
the same backend-determined bytes to the output path. -/
theorem pipeline_behavior (backend : Backend) (req : GenRequest) (fuel : Nat)
    (path : String) (fs fs' : FS) :
    (generate_img2img_sprite_sheet req path backend fuel fs).result
      = (generate_img2img_sprite_sheet req path backend fuel fs').result ∧
    (generate_img2img_sprite_sheet req path backend fuel fs).events
      = (generate_img2img_sprite_sheet req path backend fuel fs').events ∧
    (((generate_img2img_sprite_sheet req path backend fuel fs).fs = fs ∧
      (generate_img2img_sprite_sheet req path backend fuel fs').fs = fs' ∧
      ∀ p b, Event.fileWrite p b ∉
        (generate_img2img_sprite_sheet req path backend fuel fs).events) ∨
     (∃ b, (generate_img2img_sprite_sheet req path backend fuel fs).result
          = some (.ok none) ∧
        (generate_img2img_sprite_sheet req path backend fuel fs).fs
          = (fun p => if p = path then some b else fs p) ∧
        (generate_img2img_sprite_sheet req path backend fuel fs').fs
          = (fun p => if p = path then some b else fs' p))) := by
  simp only [generate_img2img_sprite_sheet]
  by_cases h400a : 400 ≤ (backend.img2img req).code
  · simp only [if_pos h400a]
    exact ⟨by trivial, by trivial, .inl ⟨by trivial, by trivial, by simp⟩⟩
  simp only [if_neg h400a]
  rcases hj1 : (backend.img2img req).jobId with - | j1
  · exact ⟨by trivial, by trivial, .inl ⟨by trivial, by trivial, by simp⟩⟩
  dsimp only
  rcases hp1 : poll_job_status j1 backend.genStatus fuel with ⟨r1, evs1⟩
  have hw1 : ∀ p b, Event.fileWrite p b ∉ evs1 := by
    intro p b
    have h := poll_no_fileWrite j1 backend.genStatus fuel p b
    rw [hp1] at h
    exact h
  rcases r1 with - | r1v
  · exact ⟨by trivial, by trivial,
      .inl ⟨by trivial, by trivial, by simp [hw1]⟩⟩
  rcases r1v with e | jr
  · exact ⟨by trivial, by trivial,
      .inl ⟨by trivial, by trivial, by simp [hw1]⟩⟩
  dsimp only
  rcases ho1 : jr.outputs.getD [] with - | ⟨o, os⟩
  · exact ⟨by trivial, by trivial,
      .inl ⟨by trivial, by trivial, by simp [hw1]⟩⟩
  dsimp only
  rcases ha : o.assetIds with - | ids
  · exact ⟨by trivial, by trivial,
      .inl ⟨by trivial, by trivial, by simp [hw1]⟩⟩
  rcases ids with - | ⟨a, as⟩
  · exact ⟨by trivial, by trivial,
      .inl ⟨by trivial, by trivial, by simp [hw1]⟩⟩
  dsimp only
  by_cases h400b : 400 ≤ (backend.removeBg a).code
  · simp only [if_pos h400b]
    exact ⟨by trivial, by trivial,
      .inl ⟨by trivial, by trivial, by simp [hw1]⟩⟩
  simp only [if_neg h400b]
  rcases hj2 : (backend.removeBg a).jobId with - | j2
  · exact ⟨by trivial, by trivial,
      .inl ⟨by trivial, by trivial, by simp [hw1]⟩⟩
  dsimp only
  rcases hp2 : poll_job_status j2 backend.bgStatus fuel with ⟨r2, evs2⟩
  have hw2 : ∀ p b, Event.fileWrite p b ∉ evs2 := by
    intro p b
    have h := poll_no_fileWrite j2 backend.bgStatus fuel p b
    rw [hp2] at h
    exact h
  rcases r2 with - | r2v
  · exact ⟨by trivial, by trivial,
      .inl ⟨by trivial, by trivial, by simp [hw1, hw2]⟩⟩
  rcases r2v with e | jr2
  · exact ⟨by trivial, by trivial,
      .inl ⟨by trivial, by trivial, by simp [hw1, hw2]⟩⟩
  dsimp only
  rcases ho2 : jr2.outputs.getD [] with - | ⟨o2, os2⟩
  · exact ⟨by trivial, by trivial,
      .inl ⟨by trivial, by trivial, by simp [hw1, hw2]⟩⟩
  dsimp only
  rcases hu : o2.url with - | u
  · exact ⟨by trivial, by trivial,
      .inl ⟨by trivial, by trivial, by simp [hw1, hw2]⟩⟩
  dsimp only
  by_cases h400c : 400 ≤ (backend.download u).1
  · simp only [if_pos h400c]
    exact ⟨by trivial, by trivial,
      .inl ⟨by trivial, by trivial, by simp [hw1, hw2]⟩⟩
  · simp only [if_neg h400c]
    exact ⟨by trivial, by trivial,
      .inr ⟨(backend.download u).2, by trivial, by trivial, by trivial⟩⟩

/-- C8: if a pipeline run fails with any error (transport, protocol,
subscripting, job failure or invalid URL), the local file system is exactly
what it was before the run: no output file is created or modified, and the
trace holds no file-write event at all. -/
theorem pipeline_error_leaves_fs_untouched (backend : Backend)
    (req : GenRequest) (fuel : Nat) (path : String) (fs : FS) (e : PyErr)
    (h : (generate_img2img_sprite_sheet req path backend fuel fs).result
      = some (.error e)) :
    (generate_img2img_sprite_sheet req path backend fuel fs).fs = fs ∧
    ∀ p b, Event.fileWrite p b ∉
      (generate_img2img_sprite_sheet req path backend fuel fs).events := by
  obtain ⟨-, -, hcase⟩ := pipeline_behavior backend req fuel path fs fs
  rcases hcase with ⟨h1, -, h3⟩ | ⟨b, hres, -, -⟩
  · exact ⟨h1, h3⟩
  · rw [hres] at h
    simp at h

/-- Witness for C8 on a concrete HTTP-500 submission failure. -/
theorem pipeline_error_leaves_fs_untouched_witness :
    (generate_img2img_sprite_sheet sampleRequest "out.png" failSubmitBackend 1
        emptyFS).result = some (.error (.httpError 500)) ∧
    ((generate_img2img_sprite_sheet sampleRequest "out.png" failSubmitBackend 1
        emptyFS).fs = emptyFS ∧
     ∀ p b, Event.fileWrite p b ∉
       (generate_img2img_sprite_sheet sampleRequest "out.png" failSubmitBackend
         1 emptyFS).events) :=
  ⟨by decide,
   pipeline_error_leaves_fs_untouched failSubmitBackend sampleRequest 1
     "out.png" emptyFS (.httpError 500) (by decide)⟩

/-- C9: against one deterministic backend, running the pipeline a second
time — starting from the file system the first run left behind — produces
the same Python result, the same event trace, and a byte-identical file at
the output path: the run is a pure function of the request and the
backend's responses, with no hidden state across calls. -/
theorem pipeline_deterministic_two_runs (backend : Backend)
    (req : GenRequest) (fuel : Nat) (path : String) (fs : FS) :
    (generate_img2img_sprite_sheet req path backend fuel
        (generate_img2img_sprite_sheet req path backend fuel fs).fs).result
      = (generate_img2img_sprite_sheet req path backend fuel fs).result ∧
    (generate_img2img_sprite_sheet req path backend fuel
        (generate_img2img_sprite_sheet req path backend fuel fs).fs).events
      = (generate_img2img_sprite_sheet req path backend fuel fs).events ∧
    (generate_img2img_sprite_sheet req path backend fuel
        (generate_img2img_sprite_sheet req path backend fuel fs).fs).fs path
      = (generate_img2img_sprite_sheet req path backend fuel fs).fs path := by
  obtain ⟨hr, he, hcase⟩ := pipeline_behavior backend req fuel path fs
    ((generate_img2img_sprite_sheet req path backend fuel fs).fs)
  refine ⟨hr.symm, he.symm, ?_⟩
  rcases hcase with ⟨h1, h2, -⟩ | ⟨b, -, hfs1, hfs2⟩
  · rw [h2]
  · rw [hfs2, hfs1]
    simp

/-- C4 counterexample: on the end-to-end happy path (asset `A1`, url `U`,
bytes `b"PNGDATA"`), the pipeline writes exactly those bytes over the
pre-existing file, but the function's Python return value is `None` — it
does not return the written path and byte count. -/
theorem pipeline_returns_none_counterexample :
    (generate_img2img_sprite_sheet sampleRequest "out.png" happyBackend 1
        preFS).result = some (.ok none) ∧
    (generate_img2img_sprite_sheet sampleRequest "out.png" happyBackend 1
        preFS).fs "out.png" = some pngBytes ∧
    pngBytes.length = 7 ∧
    (generate_img2img_sprite_sheet sampleRequest "out.png" happyBackend 1
        preFS).result ≠ some (.ok (some ("out.png", 7))) := by
  exact ⟨by decide, by decide, by decide, by decide⟩

/-- C4 (amended): on every run in which all remote steps succeed and the
final GET returns bytes `b`, the pipeline writes exactly `b` to the output
path — overwriting whatever was there — leaves every other path untouched,
and returns successfully with Python's `None` (no path/byte-count value). -/
theorem pipeline_success_writes_bytes (backend : Backend) (req : GenRequest)
    (fuel : Nat) (path : String) (fs : FS)
    (j1 j2 a u : String) (jr jr2 : JobData) (o o2 : OutputDesc)
    (os os2 : List OutputDesc) (as : List String)
    (evs1 evs2 : List Event) (c : Nat) (b : Bytes)
    (hc1 : (backend.img2img req).code < 400)
    (hj1 : (backend.img2img req).jobId = some j1)
    (hp1 : poll_job_status j1 backend.genStatus fuel = (some (.ok jr), evs1))
    (ho1 : jr.outputs.getD [] = o :: os)
    (ha : o.assetIds = some (a :: as))
    (hc2 : (backend.removeBg a).code < 400)
    (hj2 : (backend.removeBg a).jobId = some j2)
    (hp2 : poll_job_status j2 backend.bgStatus fuel = (some (.ok jr2), evs2))
    (ho2 : jr2.outputs.getD [] = o2 :: os2)
    (hu : o2.url = some u)
    (hdl : backend.download u = (c, b))
    (hc3 : c < 400) :
    (generate_img2img_sprite_sheet req path backend fuel fs).result
      = some (.ok none) ∧
    (generate_img2img_sprite_sheet req path backend fuel fs).fs path
      = some b ∧
    (∀ q, q ≠ path →
      (generate_img2img_sprite_sheet req path backend fuel fs).fs q = fs q) := by
  refine ⟨?_, ?_, fun q hq => ?_⟩
  · simp [generate_img2img_sprite_sheet, hj1, hp1, ho1, ha, hj2, hp2, ho2, hu,
      hdl, Nat.not_le.mpr hc1, Nat.not_le.mpr hc2, Nat.not_le.mpr hc3]
  · simp [generate_img2img_sprite_sheet, hj1, hp1, ho1, ha, hj2, hp2, ho2, hu,
      hdl, Nat.not_le.mpr hc1, Nat.not_le.mpr hc2, Nat.not_le.mpr hc3]
  · simp [generate_img2img_sprite_sheet, hj1, hp1, ho1, ha, hj2, hp2, ho2, hu,
      hdl, hq, Nat.not_le.mpr hc1, Nat.not_le.mpr hc2, Nat.not_le.mpr hc3]

/-- Witness for the amended C4: the happy path over a file system that
already holds stale bytes at the output path. -/
theorem pipeline_success_writes_bytes_witness :
    preFS "out.png" = some [1, 2, 3] ∧
    ((generate_img2img_sprite_sheet sampleRequest "out.png" happyBackend 1
        preFS).result = some (.ok none) ∧
     (generate_img2img_sprite_sheet sampleRequest "out.png" happyBackend 1
        preFS).fs "out.png" = some pngBytes ∧
     (∀ q, q ≠ "out.png" →
       (generate_img2img_sprite_sheet sampleRequest "out.png" happyBackend 1
         preFS).fs q = preFS q)) :=
  ⟨by decide,
   pipeline_success_writes_bytes happyBackend sampleRequest 1 "out.png" preFS
     "job-gen" "job-bg" "A1" "U" genPayload bgPayload
     ⟨some ["A1"], none⟩ ⟨none, some "U"⟩ [] [] []
     [.statusQuery "job-gen" 0] [.statusQuery "job-bg" 0] 200 pngBytes
     (by decide) (by decide) (by decide) (by decide) (by decide) (by decide)
     (by decide) (by decide) (by decide) (by decide) (by decide) (by decide)⟩

/-- C3 counterexample: when the background-removal success payload's first
output has no download URL, the run does not fail with an explicitly
raised protocol exception — it calls the final GET with a missing URL and
fails with the `requests` library's `MissingSchema` error. -/
theorem pipeline_missing_url_counterexample :
    (generate_img2img_sprite_sheet sampleRequest "out.png" noUrlBackend 1
        emptyFS).result = some (.error .missingSchema) ∧
    (∀ m, (PyErr.missingSchema : PyErr) ≠ .exception m) ∧
    Event.httpGet none ∈
      (generate_img2img_sprite_sheet sampleRequest "out.png" noUrlBackend 1
        emptyFS).events :=
  ⟨by decide, fun m => by simp, by decide⟩

/-- C3 (amended): in the background-removal step, when the success payload's
first output descriptor lacks a download URL the pipeline still calls the
final GET — with a `None` URL — and fails with the `MissingSchema` error
(not an explicitly raised protocol exception), writing nothing; when the
URL is present, the final GET is issued against exactly the first output's
URL. -/
theorem pipeline_missing_url_behavior (backend : Backend) (req : GenRequest)
    (fuel : Nat) (path : String) (fs : FS)
    (j1 j2 a : String) (jr jr2 : JobData) (o o2 : OutputDesc)
    (os os2 : List OutputDesc) (as : List String) (evs1 evs2 : List Event)
    (hc1 : (backend.img2img req).code < 400)
    (hj1 : (backend.img2img req).jobId = some j1)
    (hp1 : poll_job_status j1 backend.genStatus fuel = (some (.ok jr), evs1))
    (ho1 : jr.outputs.getD [] = o :: os)
    (ha : o.assetIds = some (a :: as))
    (hc2 : (backend.removeBg a).code < 400)
    (hj2 : (backend.removeBg a).jobId = some j2)
    (hp2 : poll_job_status j2 backend.bgStatus fuel = (some (.ok jr2), evs2))
    (ho2 : jr2.outputs.getD [] = o2 :: os2) :
    (o2.url = none →
      (generate_img2img_sprite_sheet req path backend fuel fs).result
        = some (.error .missingSchema) ∧
      (generate_img2img_sprite_sheet req path backend fuel fs).fs = fs ∧
      Event.httpGet none ∈
        (generate_img2img_sprite_sheet req path backend fuel fs).events) ∧
    (∀ u, o2.url = some u →
      Event.httpGet (some u) ∈
        (generate_img2img_sprite_sheet req path backend fuel fs).events) := by
  constructor
  · intro hu
    refine ⟨?_, ?_, ?_⟩ <;>
      simp [generate_img2img_sprite_sheet, hj1, hp1, ho1, ha, hj2, hp2, ho2,
        hu, Nat.not_le.mpr hc1, Nat.not_le.mpr hc2]
  · intro u hu
    rcases hdl : backend.download u with ⟨c, b⟩
    by_cases hc : 400 ≤ c
    · simp [generate_img2img_sprite_sheet, hj1, hp1, ho1, ha, hj2, hp2, ho2,
        hu, hdl, hc, Nat.not_le.mpr hc1, Nat.not_le.mpr hc2]
    · simp [generate_img2img_sprite_sheet, hj1, hp1, ho1, ha, hj2, hp2, ho2,
        hu, hdl, hc, Nat.not_le.mpr hc1, Nat.not_le.mpr hc2]

/-- Witness for the amended C3 on the concrete URL-less backend. -/
theorem pipeline_missing_url_behavior_witness :
    (⟨none, none⟩ : OutputDesc).url = none ∧
    (((⟨none, none⟩ : OutputDesc).url = none →
      (generate_img2img_sprite_sheet sampleRequest "out.png" noUrlBackend 1
          emptyFS).result = some (.error .missingSchema) ∧
      (generate_img2img_sprite_sheet sampleRequest "out.png" noUrlBackend 1
          emptyFS).fs = emptyFS ∧
      Event.httpGet none ∈
        (generate_img2img_sprite_sheet sampleRequest "out.png" noUrlBackend 1
          emptyFS).events) ∧
     (∀ u, (⟨none, none⟩ : OutputDesc).url = some u →
       Event.httpGet (some u) ∈
         (generate_img2img_sprite_sheet sampleRequest "out.png" noUrlBackend 1
           emptyFS).events)) :=
  ⟨rfl,
   pipeline_missing_url_behavior noUrlBackend sampleRequest 1 "out.png"
     emptyFS "job-gen" "job-bg" "A1" genPayload bgNoUrlPayload
     ⟨some ["A1"], none⟩ ⟨none, none⟩ [] [] []
     [.statusQuery "job-gen" 0] [.statusQuery "job-bg" 0]
     (by decide) (by decide) (by decide) (by decide) (by decide) (by decide)
     (by decide) (by decide) (by decide)⟩

/-- C7 counterexample: when the successful generation payload's first
output carries an empty `assetIds` list, the run fails with the unhandled
`IndexError` from `outputs[0].get("assetIds")[0]` — not with an explicitly
raised protocol exception. -/
theorem generate_empty_assetIds_counterexample :
    (generate_img2img_sprite_sheet sampleRequest "out.png" emptyAssetsBackend
        1 emptyFS).result
      = some (.error (.indexError "list index out of range")) ∧
    (∀ m, PyErr.indexError "list index out of range" ≠ .exception m) :=
  ⟨by decide, fun m => by simp⟩

/-- C7 (amended): after a successful generation job, the pipeline raises
the "No outputs" protocol exception when the payload has no outputs; when
the first output's `assetIds` is a nonempty list it extracts its first
element and submits it to the remove-background step; but when `assetIds`
is absent it fails with an unhandled `TypeError`, and when `assetIds` is
the empty list with an unhandled `IndexError` — neither is a raised
protocol exception — leaving the file system untouched in every failure
case. -/
theorem generate_asset_extraction_behavior (backend : Backend)
    (req : GenRequest) (fuel : Nat) (path : String) (fs : FS)
    (j1 : String) (jr : JobData) (evs1 : List Event)
    (hc1 : (backend.img2img req).code < 400)
    (hj1 : (backend.img2img req).jobId = some j1)
    (hp1 : poll_job_status j1 backend.genStatus fuel = (some (.ok jr), evs1)) :
    (jr.outputs.getD [] = [] →
      (generate_img2img_sprite_sheet req path backend fuel fs).result
        = some (.error (.exception "No outputs found for generation job.")) ∧
      (generate_img2img_sprite_sheet req path backend fuel fs).fs = fs) ∧
    (∀ o os a as, jr.outputs.getD [] = o :: os →
      o.assetIds = some (a :: as) →
      Event.submitRemoveBg a ∈
        (generate_img2img_sprite_sheet req path backend fuel fs).events) ∧
    (∀ o os, jr.outputs.getD [] = o :: os → o.assetIds = some [] →
      (generate_img2img_sprite_sheet req path backend fuel fs).result
        = some (.error (.indexError "list index out of range")) ∧
      (generate_img2img_sprite_sheet req path backend fuel fs).fs = fs) ∧
    (∀ o os, jr.outputs.getD [] = o :: os → o.assetIds = none →
      (generate_img2img_sprite_sheet req path backend fuel fs).result
        = some (.error (.typeError "NoneType object is not subscriptable")) ∧
      (generate_img2img_sprite_sheet req path backend fuel fs).fs = fs) := by
  refine ⟨?_, ?_, ?_, ?_⟩
  · intro ho
    constructor <;>
      simp [generate_img2img_sprite_sheet, hj1, hp1, ho, Nat.not_le.mpr hc1]
  · intro o os a as ho ha
    simp only [generate_img2img_sprite_sheet, hj1, hp1, ho, ha,
      if_neg (Nat.not_le.mpr hc1)]
    repeat' split
    all_goals simp
  · intro o os ho ha
    constructor <;>
      simp [generate_img2img_sprite_sheet, hj1, hp1, ho, ha,
        Nat.not_le.mpr hc1]
  · intro o os ho ha
    constructor <;>
      simp [generate_img2img_sprite_sheet, hj1, hp1, ho, ha,
        Nat.not_le.mpr hc1]

/-- Witness for the amended C7 on the concrete empty-`assetIds` backend. -/
theorem generate_asset_extraction_behavior_witness :
    genEmptyAssetsPayload.outputs.getD [] = [⟨some [], none⟩] ∧
    ((generate_img2img_sprite_sheet sampleRequest "out.png" emptyAssetsBackend
        1 emptyFS).result
      = some (.error (.indexError "list index out of range")) ∧
     (generate_img2img_sprite_sheet sampleRequest "out.png" emptyAssetsBackend
        1 emptyFS).fs = emptyFS) :=
  ⟨by decide,
   (generate_asset_extraction_behavior emptyAssetsBackend sampleRequest 1
       "out.png" emptyFS "job-gen" genEmptyAssetsPayload
       [.statusQuery "job-gen" 0] (by decide) (by decide)
       (by decide)).2.2.1
     ⟨some [], none⟩ [] (by decide) (by decide)⟩

end SpriteGen

